import Mathlib

/-!
Shallow embedding of the voice-AI receptionist bridge (`src/main.py`):
the Availability Planner (`GoogleIntegration.check_calendar_availability`),
the Tool Dispatcher (`CallSession.handle_tool_call`), the AI→Telephony relay
loop (`openai_to_twilio`), and the deferred session cleanup
(`delayed_cleanup`).  Python `None`-or-string values are modelled by `PyStr`,
dict entries that may be absent by `Option PyStr`.
-/

/-- A Python value that is either `None` or a string. -/
inductive PyStr where
  | null : PyStr
  | str (s : String) : PyStr
deriving DecidableEq, Repr

/-- Python f-string interpolation: `None` renders as the text "None". -/
def PyStr.render : PyStr → String
  | .null => "None"
  | .str s => s

/-- Python truthiness of a `None`-or-string value: `None` and `""` are falsy. -/
def PyStr.truthy : PyStr → Bool
  | .null => false
  | .str s => !(s == "")

/-- Reading a key that may be absent from a dict (`d.get(k)`): absent gives `None`. -/
def getv (o : Option PyStr) : PyStr := o.getD .null

-- ==================== AVAILABILITY PLANNER ====================

/-- A booked start time from the calendar query, reduced to the only fields the
conflict test reads (`booked_local.hour`, `booked_local.minute`). -/
structure Booked where
  hour : Nat
  minute : Nat
deriving DecidableEq, Repr

/-- One step bound for the slot-generation while loop.  The loop starts at
9:00 (540 minutes) and advances by 60 while `current < 20:00` (1200 minutes),
so it runs at most 11 iterations; a fuel of 12 never runs out. -/
def genSlotsRem : Nat → Nat → List Nat
  | 0, _ => []
  | rem + 1, current =>
    if current < 1200 then current :: genSlotsRem rem (current + 60) else []

/-- Candidate slot starts (minutes since midnight) enumerated by the
`while current < end` loop of `check_calendar_availability`. -/
def genSlots (current : Nat) : List Nat := genSlotsRem 12 current

/-- Two-digit zero padding, as `strftime` does for `%I` and `%M`. -/
def pad2 (n : Nat) : String := if n < 10 then "0" ++ toString n else toString n

/-- Python `current.strftime("%I:%M %p")` for a time given in minutes since
midnight: zero-padded 12-hour clock with AM/PM. -/
def fmt12 (t : Nat) : String :=
  let h := t / 60 % 24
  let m := t % 60
  let h12 := if h % 12 = 0 then 12 else h % 12
  let ampm := if h < 12 then "AM" else "PM"
  pad2 h12 ++ ":" ++ pad2 m ++ " " ++ ampm

/-- The same 12-hour label but without zero padding on the hour, the style used
by the hand-written fallback literals such as "2:00 PM". -/
def fmt12unpadded (t : Nat) : String :=
  let h := t / 60 % 24
  let m := t % 60
  let h12 := if h % 12 = 0 then 12 else h % 12
  let ampm := if h < 12 then "AM" else "PM"
  toString h12 ++ ":" ++ pad2 m ++ " " ++ ampm

/-- The conflict test of the planner's inner loop:
`booked_local.hour == current.hour and abs(booked_local.minute - current.minute) < duration_minutes`. -/
def conflictsWith (duration t : Nat) (b : Booked) : Bool :=
  b.hour == t / 60 && Int.natAbs ((b.minute : Int) - ((t % 60 : Nat) : Int)) < duration

/-- `is_available` for one candidate: no booked start conflicts. -/
def isAvailable (booked : List Booked) (duration t : Nat) : Bool :=
  booked.all fun b => !(conflictsWith duration t b)

/-- The `available` list built by the loop: the label of every non-conflicting
candidate, in loop order (before the `[:5]` truncation). -/
def availableLabels (booked : List Booked) (duration : Nat) : List String :=
  ((genSlots 540).filter (isAvailable booked duration)).map fmt12

/-- The fixed fallback returned when the calendar collaborator is not
configured or any step of the query raises. -/
def fallbackSlots : List String := ["10:00 AM", "2:00 PM", "4:00 PM"]

/-- Environment of one planner run: whether the calendar client is configured,
whether `datetime.strptime(date_str, "%Y-%m-%d")` succeeds, whether the events
query succeeds, and the busy starts it returns when it does. -/
structure CalendarEnv where
  configured : Bool
  dateValid : Bool
  queryOk : Bool
  booked : List Booked
deriving DecidableEq, Repr

/-- `GoogleIntegration.check_calendar_availability`: mock fallback when not
configured, fallback on any exception (bad date or failed query), otherwise
the first five labels of the availability loop. -/
def checkCalendarAvailability (cal : CalendarEnv) (duration_minutes : Nat) : List String :=
  if cal.configured = false then fallbackSlots
  else if cal.dateValid = false then fallbackSlots
  else if cal.queryOk = false then fallbackSlots
  else (availableLabels cal.booked duration_minutes).take 5

-- ==================== TOOL DISPATCHER ====================

/-- The argument fields a tool invocation may carry (union of the six tools'
schemas).  A field holds `none` when the key is absent from the parsed JSON
object, `some v` when present with value `v`. -/
structure Args where
  name : Option PyStr := none
  phone : Option PyStr := none
  email : Option PyStr := none
  date : Option PyStr := none
  time : Option PyStr := none
  purpose : Option PyStr := none
  location : Option PyStr := none
  lead_type : Option PyStr := none
  notes : Option PyStr := none
  type : Option PyStr := none
  area_interest : Option PyStr := none
  budget : Option PyStr := none
  timeline : Option PyStr := none
  property_address : Option PyStr := none
  next_action : Option PyStr := none
  message : Option PyStr := none
  reason : Option PyStr := none
  context_summary : Option PyStr := none
  caller_name : Option PyStr := none
  caller_phone : Option PyStr := none
  urgency : Option PyStr := none
  duration_minutes : Option Nat := none
deriving DecidableEq, Repr

/-- The raw `arguments` string of a tool-invocation event: either a JSON text
parsing to an object, or malformed text that `json.loads` rejects. -/
inductive ArgsPayload where
  | wellFormed (a : Args) : ArgsPayload
  | malformed : ArgsPayload
deriving DecidableEq, Repr

/-- `json.loads(tool_call.get("arguments", "{}"))`: an absent `arguments` key
defaults to the empty object text, malformed text raises. -/
def jsonLoads : Option ArgsPayload → Except Unit Args
  | none => .ok {}
  | some (.wellFormed a) => .ok a
  | some .malformed => .error ()

/-- A tool-invocation event's relevant fields (`tool_call.get("name")`,
`tool_call.get("arguments", "{}")`). -/
structure ToolCall where
  name : Option String
  arguments : Option ArgsPayload
deriving DecidableEq, Repr

/-- The dict passed to `GoogleIntegration.log_lead`, restricted to the keys its
row builder reads.  `none` means the key is absent from the dict. -/
structure LeadDict where
  name : Option PyStr := none
  phone : Option PyStr := none
  email : Option PyStr := none
  type : Option PyStr := none
  area_interest : Option PyStr := none
  budget : Option PyStr := none
  timeline : Option PyStr := none
  property_address : Option PyStr := none
  notes : Option PyStr := none
  next_action : Option PyStr := none
deriving DecidableEq, Repr

/-- The phone cell of the persisted row: `lead_data.get("phone", "")`. -/
def rowPhone (d : LeadDict) : PyStr := d.phone.getD (.str "")

/-- A phone cell that ends up blank in the store: `None` or the empty string. -/
def blankPhone : PyStr → Bool
  | .null => true
  | .str s => s == ""

/-- `CallSession.lead_data`: every key is present from construction, value
possibly `None` (so `dict.get` with a default never uses the default). -/
structure LeadData where
  name : PyStr := .null
  phone : PyStr := .null
  email : PyStr := .null
  type : PyStr := .null
  area_interest : PyStr := .null
  budget : PyStr := .null
  timeline : PyStr := .null
  notes : List String := []
deriving DecidableEq, Repr

/-- The per-call session state mutated by the dispatcher. -/
structure Session where
  call_sid : String
  lead_data : LeadData := {}
  transfer_requested : Bool := false
  appointment_booked : Bool := false
deriving DecidableEq, Repr

/-- The `log_lead` merge step for one key:
`if arguments.get(key): self.lead_data[key] = arguments.get(key)`. -/
def mergeField (cur : PyStr) (argv : Option PyStr) : PyStr :=
  if (getv argv).truthy then getv argv else cur

/-- The SMS body built in the `book_appointment` branch of
`handle_tool_call` (an f-string over `arguments.get` values). -/
def bookMsg (a : Args) : String :=
  "Confirmed: " ++ (getv a.purpose).render ++ " with Mark Esposito on "
    ++ (getv a.date).render ++ " at " ++ (getv a.time).render ++ ". Address: "
    ++ (getv a.location).render ++ ". Mark will contact you shortly. -BHHS Québec"

/-- The structured result value a dispatcher branch returns. -/
inductive ToolResult where
  | availability (available_slots : List String) (date : PyStr) : ToolResult
  | booking (success : Bool) (booking_details : Args) : ToolResult
  | leadLogged (success : Bool) (lead_id : String) : ToolResult
  | smsResult (success : Bool) : ToolResult
  | transfer (status message : String) (context : PyStr) : ToolResult
  | voicemail (success : Bool) (callback_within : String) : ToolResult
deriving DecidableEq, Repr

/-- The collaborator calls one dispatch makes: record-store appends
(dicts handed to `log_lead`) and notifier sends (`send_sms(to, body)`). -/
structure DispatchEffects where
  records : List LeadDict := []
  sms : List (PyStr × PyStr) := []
deriving DecidableEq, Repr

/-- Concatenation of the effects of consecutive dispatches. -/
def DispatchEffects.append (e₁ e₂ : DispatchEffects) : DispatchEffects :=
  ⟨e₁.records ++ e₂.records, e₁.sms ++ e₂.sms⟩

/-- Collaborator outcomes for one dispatch: the planner's environment, the
value `book_appointment` returns, and the value `send_sms` returns. -/
structure Env where
  cal : CalendarEnv
  bookOk : Bool
  smsOk : Bool
deriving DecidableEq, Repr

/-- The dict built in the `warm_transfer` branch (the `lead_data.get(k, d)`
defaults are dead because every `lead_data` key is present). -/
def warmDict (s : Session) (a : Args) : LeadDict :=
  { name := some s.lead_data.name
    phone := some s.lead_data.phone
    type := some s.lead_data.type
    notes := some (.str ("WARM TRANSFER REQUESTED: " ++ (getv a.reason).render))
    next_action := some (.str ("Call back immediately. Context: " ++ (getv a.context_summary).render)) }

/-- The dict built in the `log_voicemail` branch. -/
def voicemailDict (a : Args) : LeadDict :=
  { name := some (getv a.caller_name)
    phone := some (getv a.caller_phone)
    type := some (.str "Voicemail")
    notes := some (getv a.message)
    next_action := some (.str ("Callback requested - Urgency: " ++ (a.urgency.getD (.str "Medium")).render)) }

/-- In the `log_lead` branch the full `arguments` object is handed to the
record store. -/
def leadDictOfArgs (a : Args) : LeadDict :=
  { name := a.name, phone := a.phone, email := a.email, type := a.type
    area_interest := a.area_interest, budget := a.budget, timeline := a.timeline
    property_address := a.property_address, notes := a.notes, next_action := a.next_action }

/-- The `lead_data` merge performed by the `log_lead` branch over the keys
name, phone, email, type, area_interest, budget, timeline. -/
def mergeLead (ld : LeadData) (a : Args) : LeadData :=
  { ld with
    name := mergeField ld.name a.name
    phone := mergeField ld.phone a.phone
    email := mergeField ld.email a.email
    type := mergeField ld.type a.type
    area_interest := mergeField ld.area_interest a.area_interest
    budget := mergeField ld.budget a.budget
    timeline := mergeField ld.timeline a.timeline }

/-- `CallSession.handle_tool_call`: parse the arguments text (an exception
escapes to the caller, modelled by `Except.error`), then run the `if`/`elif`
chain over the tool name; an unmatched name leaves `result = None`. -/
def handleToolCall (env : Env) (tc : ToolCall) (s : Session) :
    Except Unit (Option ToolResult × Session × DispatchEffects) :=
  match jsonLoads tc.arguments with
  | .error e => .error e
  | .ok a =>
    if tc.name = some "check_calendar_availability" then
      -- date = arguments.get("date"); the planner is called with the date only,
      -- so its duration parameter takes the default 60
      let date := getv a.date
      .ok (some (.availability (checkCalendarAvailability env.cal 60) date), s, {})
    else if tc.name = some "book_appointment" then
      if env.bookOk then
        let s' := { s with appointment_booked := true }
        let phone := getv a.phone
        let eff : DispatchEffects :=
          if phone.truthy then { sms := [(phone, .str (bookMsg a))] } else {}
        .ok (some (.booking true a), s', eff)
      else
        .ok (some (.booking false a), s, {})
    else if tc.name = some "log_lead" then
      .ok (some (.leadLogged true s.call_sid),
           { s with lead_data := mergeLead s.lead_data a },
           { records := [leadDictOfArgs a] })
    else if tc.name = some "send_sms_confirmation" then
      .ok (some (.smsResult env.smsOk), s, { sms := [(getv a.phone, getv a.message)] })
    else if tc.name = some "warm_transfer" then
      .ok (some (.transfer "transfer_initiated" "Connecting you to Mark Esposito now. Please hold."
             (getv a.context_summary)),
           { s with transfer_requested := true },
           { records := [warmDict s a] })
    else if tc.name = some "log_voicemail" then
      .ok (some (.voicemail true "2 hours"), s, { records := [voicemailDict a] })
    else
      .ok (none, s, {})

/-- Session state after one dispatch (unchanged when the dispatch raises). -/
def dispatchState (env : Env) (tc : ToolCall) (s : Session) : Session :=
  match handleToolCall env tc s with
  | .ok (_, s', _) => s'
  | .error _ => s

/-- Result value of one dispatch. -/
def dispatchResult (env : Env) (tc : ToolCall) (s : Session) : Option ToolResult :=
  match handleToolCall env tc s with
  | .ok (r, _, _) => r
  | .error _ => none

/-- Collaborator calls made by one dispatch. -/
def dispatchEffects (env : Env) (tc : ToolCall) (s : Session) : DispatchEffects :=
  match handleToolCall env tc s with
  | .ok (_, _, eff) => eff
  | .error _ => {}

-- ==================== AI→TELEPHONY RELAY LOOP ====================

/-- Events of interest arriving from the AI transport inside
`openai_to_twilio` (`message.get("type")`). -/
inductive AiEvent where
  | audioDelta (payload : String) : AiEvent
  | functionCallDone (tc : ToolCall) (call_id : Option String) : AiEvent
  | responseDone : AiEvent
  | speechStarted : AiEvent
  | errorEvent : AiEvent
  | other : AiEvent
deriving DecidableEq, Repr

/-- Messages the loop sends out (media frames to the telephony socket,
function output and continuation events to the AI socket). -/
inductive OutMsg where
  | media (payload : String) : OutMsg
  | functionOutput (call_id : Option String) (output : Option ToolResult) : OutMsg
  | responseCreate : OutMsg
deriving DecidableEq, Repr

/-- Observable outcome of one run of the AI→Telephony loop: the messages sent,
the final session state, the accumulated collaborator calls, and whether the
loop ended through its `except` handler (an exception escaped the body). -/
structure LoopOut where
  outputs : List OutMsg
  session : Session
  effects : DispatchEffects
  aborted : Bool
deriving DecidableEq, Repr

/-- The `openai_to_twilio` loop body: audio deltas are forwarded when
non-empty; a completed tool invocation is dispatched and its result plus a
continuation is sent back; `response.done`, `speech_started` and AI error
events only log; an exception raised by the dispatcher is caught by the
enclosing `except`, which logs and ends the loop, dropping later events. -/
def openaiToTwilio (env : Env) : Session → List AiEvent → LoopOut
  | s, [] => ⟨[], s, {}, false⟩
  | s, e :: rest =>
    match e with
    | .audioDelta payload =>
      let tail := openaiToTwilio env s rest
      if payload == "" then tail
      else ⟨.media payload :: tail.outputs, tail.session, tail.effects, tail.aborted⟩
    | .functionCallDone tc cid =>
      match handleToolCall env tc s with
      | .error _ => ⟨[], s, {}, true⟩
      | .ok (res, s', eff) =>
        let tail := openaiToTwilio env s' rest
        ⟨.functionOutput cid res :: .responseCreate :: tail.outputs,
         tail.session, eff.append tail.effects, tail.aborted⟩
    | _ => openaiToTwilio env s rest

/-- An event whose embedded tool invocation, if any, has a syntactically
well-formed (or absent) arguments payload. -/
def eventWellFormed : AiEvent → Bool
  | .functionCallDone tc _ => !(tc.arguments == some .malformed)
  | _ => true

-- ==================== SESSION REGISTRY / DEFERRED CLEANUP ====================

/-- The process-wide `active_sessions` dict, call identifier → session. -/
abbrev Registry := List (String × Session)

/-- The final-lead dict built by `delayed_cleanup`
(`{**session.lead_data, "notes": ..., "next_action": ...}`; `lead_data` has no
property_address key, and its notes list is overridden by the closing note). -/
def finalizeDict (s : Session) : LeadDict :=
  { name := some s.lead_data.name
    phone := some s.lead_data.phone
    email := some s.lead_data.email
    type := some s.lead_data.type
    area_interest := some s.lead_data.area_interest
    budget := some s.lead_data.budget
    timeline := some s.lead_data.timeline
    notes := some (.str "Call ended without booking. Follow up required.")
    next_action := some (.str "Call back to qualify further") }

/-- The body of `delayed_cleanup` after its sleep: if the call is still
registered, log a final lead when no booking happened and a name is known,
then delete the registry entry; otherwise do nothing.  Returns the updated
registry and the records appended. -/
def delayedCleanup (registry : Registry) (call_sid : String) : Registry × List LeadDict :=
  match List.lookup call_sid registry with
  | none => (registry, [])
  | some session =>
    let recs :=
      if !session.appointment_booked && session.lead_data.name.truthy
      then [finalizeDict session] else []
    (List.filter (fun p => !(p.1 == call_sid)) registry, recs)

-- ==================== SPEC-SIDE PREDICATES ====================

/-- The label `s` renders the time `t` (minutes since midnight) on a 12-hour
clock with an AM/PM suffix, with either a padded or an unpadded hour. -/
def isTwelveHourLabel (t : Nat) (s : String) : Prop :=
  s = fmt12 t ∨ s = fmt12unpadded t

/-- The string `sub` occurs verbatim inside `msg`. -/
def containsStr (sub msg : String) : Prop := ∃ a b, msg = a ++ sub ++ b

-- ==================== HELPER LEMMAS ====================

lemma forall₂_label_map (l : List Nat) : List.Forall₂ isTwelveHourLabel l (l.map fmt12) := by
  induction l with
  | nil => exact .nil
  | cons x xs ih => exact .cons (Or.inl rfl) ih

lemma lookup_filter_not_self (sid : String) (reg : List (String × Session)) :
    List.lookup sid (reg.filter fun p => !(p.1 == sid)) = none := by
  induction reg with
  | nil => rfl
  | cons hd tl ih =>
    by_cases h : hd.1 = sid
    · simp [List.filter_cons, h, ih]
    · have h' : ¬sid = hd.1 := fun e => h e.symm
      have hb : (hd.1 == sid) = false := by simp [h]
      have hb' : (sid == hd.1) = false := by simp [h']
      simp [List.filter_cons, hb, List.lookup, hb', ih]

lemma bookMsg_contains_purpose (a : Args) (x : String) (hx : a.purpose = some (.str x)) :
    containsStr x (bookMsg a) := by
  refine ⟨"Confirmed: ",
    " with Mark Esposito on " ++ (getv a.date).render ++ " at " ++ (getv a.time).render
      ++ ". Address: " ++ (getv a.location).render
      ++ ". Mark will contact you shortly. -BHHS Québec", ?_⟩
  simp [bookMsg, hx, getv, PyStr.render, String.append_assoc]

lemma bookMsg_contains_date (a : Args) (x : String) (hx : a.date = some (.str x)) :
    containsStr x (bookMsg a) := by
  refine ⟨"Confirmed: " ++ (getv a.purpose).render ++ " with Mark Esposito on ",
    " at " ++ (getv a.time).render ++ ". Address: " ++ (getv a.location).render
      ++ ". Mark will contact you shortly. -BHHS Québec", ?_⟩
  simp [bookMsg, hx, getv, PyStr.render, String.append_assoc]

lemma bookMsg_contains_time (a : Args) (x : String) (hx : a.time = some (.str x)) :
    containsStr x (bookMsg a) := by
  refine ⟨"Confirmed: " ++ (getv a.purpose).render ++ " with Mark Esposito on "
      ++ (getv a.date).render ++ " at ",
    ". Address: " ++ (getv a.location).render
      ++ ". Mark will contact you shortly. -BHHS Québec", ?_⟩
  simp [bookMsg, hx, getv, PyStr.render, String.append_assoc]

lemma bookMsg_contains_location (a : Args) (x : String) (hx : a.location = some (.str x)) :
    containsStr x (bookMsg a) := by
  refine ⟨"Confirmed: " ++ (getv a.purpose).render ++ " with Mark Esposito on "
      ++ (getv a.date).render ++ " at " ++ (getv a.time).render ++ ". Address: ",
    ". Mark will contact you shortly. -BHHS Québec", ?_⟩
  simp [bookMsg, hx, getv, PyStr.render, String.append_assoc]

lemma fallback_shape :
    fallbackSlots.length ≤ 5 ∧
    ∃ ts : List Nat, List.Forall₂ isTwelveHourLabel ts fallbackSlots ∧
      ts.Pairwise (· < ·) ∧ ∀ t ∈ ts, 540 ≤ t ∧ t < 1200 := by
  refine ⟨by decide, [600, 840, 960], ?_, by decide, by decide⟩
  exact .cons (Or.inl (by decide)) (.cons (Or.inr (by decide)) (.cons (Or.inr (by decide)) .nil))

lemma genSlots_pairwise : (genSlots 540).Pairwise (· < ·) := by decide

lemma genSlots_bounds : ∀ t ∈ genSlots 540, 540 ≤ t ∧ t < 1200 := by decide

lemma main_shape (booked : List Booked) (duration : Nat) :
    ((availableLabels booked duration).take 5).length ≤ 5 ∧
    ∃ ts : List Nat, List.Forall₂ isTwelveHourLabel ts ((availableLabels booked duration).take 5) ∧
      ts.Pairwise (· < ·) ∧ ∀ t ∈ ts, 540 ≤ t ∧ t < 1200 := by
  refine ⟨List.length_take_le 5 _,
    ((genSlots 540).filter (isAvailable booked duration)).take 5, ?_, ?_, ?_⟩
  · have heq : (availableLabels booked duration).take 5
        = (((genSlots 540).filter (isAvailable booked duration)).take 5).map fmt12 := by
      simp [availableLabels, List.map_take]
    rw [heq]
    exact forall₂_label_map _
  · exact (genSlots_pairwise.filter _).sublist (List.take_sublist 5 _)
  · intro t ht
    have h1 : t ∈ (genSlots 540).filter (isAvailable booked duration) :=
      (List.take_sublist 5 _).subset ht
    exact genSlots_bounds t (List.mem_filter.mp h1).1

-- ==================== CONCRETE INSTANCES FOR WITNESSES ====================

/-- Collaborator outcomes used by the concrete booking scenarios: calendar
client unconfigured (so the planner would fall back), booking and SMS sends
reported successful. -/
def c1Env : Env := ⟨⟨false, false, false, []⟩, true, true⟩

/-- A fresh session for call "CA123". -/
def c1Sess : Session := ⟨"CA123", {}, false, false⟩

/-- A fully populated booking invocation. -/
def c1Args : Args :=
  { phone := some (.str "+15145550000"), purpose := some (.str "Property Viewing"),
    date := some (.str "2025-06-10"), time := some (.str "10:00 AM"),
    location := some (.str "123 Rue X") }

/-- The booking tool call carrying `c1Args`. -/
def c1Tc : ToolCall := ⟨some "book_appointment", some (.wellFormed c1Args)⟩

/-- A booking invocation whose phone field is present but the empty string
(falsy in Python, yet schema-typed as a string). -/
def c1BadArgs : Args :=
  { phone := some (.str ""), purpose := some (.str "Property Viewing"),
    date := some (.str "2025-06-10"), time := some (.str "10:00 AM"),
    location := some (.str "123 Rue X") }

-- ==================== CLAIM THEOREMS ====================

/-- Claim C1 (amended): a `bookAppointment` invocation whose calendar-store
create succeeds sets `appointment_booked` to true, appends no record itself,
and returns a success result; and when the invocation's phone field is present
and non-empty it triggers exactly one notifier (SMS) call whose message
contains the invocation's purpose, date, time and location fields verbatim. -/
theorem C1_booking_success_sms (cal : CalendarEnv) (smsOk : Bool) (s : Session) (a : Args) :
    (dispatchState ⟨cal, true, smsOk⟩ ⟨some "book_appointment", some (.wellFormed a)⟩ s).appointment_booked = true ∧
    dispatchResult ⟨cal, true, smsOk⟩ ⟨some "book_appointment", some (.wellFormed a)⟩ s =
      some (.booking true a) ∧
    (dispatchEffects ⟨cal, true, smsOk⟩ ⟨some "book_appointment", some (.wellFormed a)⟩ s).records = [] ∧
    ∀ p : String, a.phone = some (.str p) → p ≠ "" →
      (dispatchEffects ⟨cal, true, smsOk⟩ ⟨some "book_appointment", some (.wellFormed a)⟩ s).sms =
        [(.str p, .str (bookMsg a))] ∧
      (∀ x, a.purpose = some (.str x) → containsStr x (bookMsg a)) ∧
      (∀ x, a.date = some (.str x) → containsStr x (bookMsg a)) ∧
      (∀ x, a.time = some (.str x) → containsStr x (bookMsg a)) ∧
      (∀ x, a.location = some (.str x) → containsStr x (bookMsg a)) := by
  refine ⟨rfl, rfl, ?_, ?_⟩
  · simp only [dispatchEffects, handleToolCall, jsonLoads]
    split_ifs <;> rfl
  · intro p hp hpne
    refine ⟨?_, fun x hx => bookMsg_contains_purpose a x hx,
      fun x hx => bookMsg_contains_date a x hx,
      fun x hx => bookMsg_contains_time a x hx,
      fun x hx => bookMsg_contains_location a x hx⟩
    simp [dispatchEffects, handleToolCall, jsonLoads, hp, getv, PyStr.truthy, hpne]

/-- Claim C1 witness: the amended theorem applied to a fully populated booking
invocation on a fresh session. -/
theorem C1_witness :
    (dispatchState c1Env c1Tc c1Sess).appointment_booked = true ∧
    dispatchResult c1Env c1Tc c1Sess = some (.booking true c1Args) ∧
    (dispatchEffects c1Env c1Tc c1Sess).sms = [(.str "+15145550000", .str (bookMsg c1Args))] ∧
    containsStr "Property Viewing" (bookMsg c1Args) ∧
    containsStr "2025-06-10" (bookMsg c1Args) ∧
    containsStr "10:00 AM" (bookMsg c1Args) ∧
    containsStr "123 Rue X" (bookMsg c1Args) := by
  obtain ⟨h1, h2, h3, h4⟩ :=
    C1_booking_success_sms ⟨false, false, false, []⟩ true c1Sess c1Args
  obtain ⟨hsms, hp, hd, ht, hl⟩ := h4 "+15145550000" rfl (by decide)
  exact ⟨h1, h2, hsms, hp _ rfl, hd _ rfl, ht _ rfl, hl _ rfl⟩

/-- Claim C1 counterexample: a booking invocation whose phone field is the
empty string succeeds (calendar create ok, `appointment_booked` set) yet
triggers zero notifier calls, not exactly one. -/
theorem C1_counterexample :
    dispatchResult c1Env ⟨some "book_appointment", some (.wellFormed c1BadArgs)⟩ c1Sess =
      some (.booking true c1BadArgs) ∧
    (dispatchState c1Env ⟨some "book_appointment", some (.wellFormed c1BadArgs)⟩ c1Sess).appointment_booked = true ∧
    (dispatchEffects c1Env ⟨some "book_appointment", some (.wellFormed c1BadArgs)⟩ c1Sess).sms = [] :=
  ⟨rfl, rfl, rfl⟩

/-- Claim C2: a `bookAppointment` invocation whose calendar-store create fails
returns a failure result, leaves the whole session (in particular the
`appointment_booked` flag) unchanged, and makes no notifier call and no
record-store append. -/
theorem C2_booking_failure (cal : CalendarEnv) (smsOk : Bool) (s : Session) (a : Args) :
    handleToolCall ⟨cal, false, smsOk⟩ ⟨some "book_appointment", some (.wellFormed a)⟩ s =
      .ok (some (.booking false a), s, {}) ∧
    (dispatchState ⟨cal, false, smsOk⟩ ⟨some "book_appointment", some (.wellFormed a)⟩ s).appointment_booked
      = s.appointment_booked ∧
    (dispatchEffects ⟨cal, false, smsOk⟩ ⟨some "book_appointment", some (.wellFormed a)⟩ s).sms = [] :=
  ⟨rfl, rfl, rfl⟩

/-- Claim C3: for every calendar environment (hence every booked set) and
every requested duration, the Availability Planner returns at most 5 labels,
and the returned labels render a strictly ascending sequence of times inside
the business window 09:00–20:00 on a 12-hour clock with AM/PM. -/
theorem C3_planner_shape (cal : CalendarEnv) (duration : Nat) :
    (checkCalendarAvailability cal duration).length ≤ 5 ∧
    ∃ ts : List Nat,
      List.Forall₂ isTwelveHourLabel ts (checkCalendarAvailability cal duration) ∧
      ts.Pairwise (· < ·) ∧ ∀ t ∈ ts, 540 ≤ t ∧ t < 1200 := by
  unfold checkCalendarAvailability
  split_ifs with h1 h2 h3
  · exact fallback_shape
  · exact fallback_shape
  · exact fallback_shape
  · exact main_shape cal.booked duration

/-- Claim C4: whenever the calendar collaborator is unconfigured or its query
fails, the planner returns exactly the fixed three-slot fallback, regardless
of requested duration, date validity, or booked set, surfacing no error. -/
theorem C4_planner_fallback (cal : CalendarEnv) (duration : Nat)
    (h : cal.configured = false ∨ cal.queryOk = false) :
    checkCalendarAvailability cal duration = fallbackSlots := by
  unfold checkCalendarAvailability
  rcases h with h | h
  · simp [h]
  · by_cases h1 : cal.configured = false
    · simp [h1]
    · by_cases h2 : cal.dateValid = false
      · simp [h1, h2]
      · simp [h1, h2, h]

/-- Claim C4 witness: the fallback theorem applied to an unconfigured client
and to a failing query, each with a nonempty booked set and a non-default
duration. -/
theorem C4_witness :
    checkCalendarAvailability ⟨false, true, true, [⟨10, 0⟩]⟩ 90 = fallbackSlots ∧
    checkCalendarAvailability ⟨true, true, false, [⟨10, 0⟩]⟩ 25 = fallbackSlots :=
  ⟨C4_planner_fallback _ 90 (Or.inl rfl), C4_planner_fallback _ 25 (Or.inr rfl)⟩

/-- Claim C5: a candidate slot is rejected by the availability loop exactly
when some booked start shares its hour and lies within `duration` minutes of
it; a booked start in a different hour never rejects a candidate. -/
theorem C5_conflict_iff (booked : List Booked) (duration t : Nat) (ht : t ∈ genSlots 540) :
    (fmt12 t ∉ availableLabels booked duration ↔
      ∃ b ∈ booked, b.hour = t / 60 ∧
        Int.natAbs ((b.minute : Int) - ((t % 60 : Nat) : Int)) < duration) ∧
    ((∀ b ∈ booked, b.hour ≠ t / 60) → fmt12 t ∈ availableLabels booked duration) := by
  have hinj : ∀ x ∈ genSlots 540, ∀ y ∈ genSlots 540, fmt12 x = fmt12 y → x = y :=
    fun x hx y hy h => List.inj_on_of_nodup_map (by decide) hx hy h
  have hmem : fmt12 t ∈ availableLabels booked duration ↔ isAvailable booked duration t = true := by
    constructor
    · intro h
      obtain ⟨u, hu, hfu⟩ := List.mem_map.mp h
      obtain ⟨hul, hpu⟩ := List.mem_filter.mp hu
      rwa [hinj u hul t ht hfu] at hpu
    · intro hp
      exact List.mem_map.mpr ⟨t, List.mem_filter.mpr ⟨ht, hp⟩, rfl⟩
  have havail : isAvailable booked duration t = false ↔
      ∃ b ∈ booked, b.hour = t / 60 ∧
        Int.natAbs ((b.minute : Int) - ((t % 60 : Nat) : Int)) < duration := by
    simp [isAvailable, List.all_eq_false, conflictsWith]
  constructor
  · rw [hmem, Bool.not_eq_true, havail]
  · intro hno
    rw [hmem]
    by_contra hfalse
    obtain ⟨b, hb, hh, _⟩ := havail.mp (Bool.not_eq_true _ |>.mp hfalse)
    exact hno b hb hh

/-- Claim C5 witness: with one start booked at 09:30 and duration 60, the
09:00 candidate is rejected (same hour, distance 30 < 60) while the 10:00
candidate (different hour) survives. -/
theorem C5_witness :
    fmt12 540 ∉ availableLabels [⟨9, 30⟩] 60 ∧
    fmt12 600 ∈ availableLabels [⟨9, 30⟩] 60 := by
  constructor
  · exact (C5_conflict_iff [⟨9, 30⟩] 60 540 (by decide)).1.mpr
      ⟨⟨9, 30⟩, by decide, by decide, by decide⟩
  · exact (C5_conflict_iff [⟨9, 30⟩] 60 600 (by decide)).2 (by decide)

/-- Claim C7: `warmTransfer` sets `transfer_requested` idempotently (one or
two invocations both leave it true), each invocation appends exactly one
record-store entry, and each returns the hold-and-transfer result carrying
that invocation's context summary. -/
theorem C7_warm_transfer_idempotent (env : Env) (s : Session) (a a₂ : Args) :
    (dispatchState env ⟨some "warm_transfer", some (.wellFormed a)⟩ s).transfer_requested = true ∧
    (dispatchState env ⟨some "warm_transfer", some (.wellFormed a₂)⟩
        (dispatchState env ⟨some "warm_transfer", some (.wellFormed a)⟩ s)).transfer_requested = true ∧
    (dispatchEffects env ⟨some "warm_transfer", some (.wellFormed a)⟩ s).records = [warmDict s a] ∧
    (dispatchEffects env ⟨some "warm_transfer", some (.wellFormed a₂)⟩
        (dispatchState env ⟨some "warm_transfer", some (.wellFormed a)⟩ s)).records.length = 1 ∧
    dispatchResult env ⟨some "warm_transfer", some (.wellFormed a)⟩ s =
      some (.transfer "transfer_initiated" "Connecting you to Mark Esposito now. Please hold."
        (getv a.context_summary)) ∧
    dispatchResult env ⟨some "warm_transfer", some (.wellFormed a₂)⟩
        (dispatchState env ⟨some "warm_transfer", some (.wellFormed a)⟩ s) =
      some (.transfer "transfer_initiated" "Connecting you to Mark Esposito now. Please hold."
        (getv a₂.context_summary)) :=
  ⟨rfl, rfl, rfl, rfl, rfl, rfl⟩

/-- Claim C6 (code bug evaluated): the dispatcher's `checkAvailability` branch
calls the planner without forwarding the requested duration, so a request for
15 minutes on a day with a 09:30 busy start yields the default-60 slot list
(without "09:00 AM") although the planner run for 15 minutes would include it. -/
theorem C6_duration_not_forwarded :
    dispatchResult ⟨⟨true, true, true, [⟨9, 30⟩]⟩, true, true⟩
        ⟨some "check_calendar_availability",
         some (.wellFormed { date := some (.str "2025-06-10"), duration_minutes := some 15 })⟩
        ⟨"CA123", {}, false, false⟩ =
      some (.availability (checkCalendarAvailability ⟨true, true, true, [⟨9, 30⟩]⟩ 60)
        (.str "2025-06-10")) ∧
    checkCalendarAvailability ⟨true, true, true, [⟨9, 30⟩]⟩ 60 ≠
      checkCalendarAvailability ⟨true, true, true, [⟨9, 30⟩]⟩ 15 ∧
    checkCalendarAvailability ⟨true, true, true, [⟨9, 30⟩]⟩ 15 =
      ["09:00 AM", "10:00 AM", "11:00 AM", "12:00 PM", "01:00 PM"] ∧
    checkCalendarAvailability ⟨true, true, true, [⟨9, 30⟩]⟩ 60 =
      ["10:00 AM", "11:00 AM", "12:00 PM", "01:00 PM", "02:00 PM"] :=
  ⟨rfl, by decide, by decide, by decide⟩

/-- Claim C8: when deferred cleanup finds the session still registered, it
appends exactly one finalize record if no appointment was booked and the lead
name is non-empty, appends none if an appointment was booked, and removes the
registry entry; when the entry is already gone the cleanup is a no-op. -/
theorem C8_cleanup_finalize :
    (∀ (reg : Registry) (sid : String) (sess : Session),
      List.lookup sid reg = some sess →
      (sess.appointment_booked = false → sess.lead_data.name.truthy = true →
        (delayedCleanup reg sid).2 = [finalizeDict sess]) ∧
      (sess.appointment_booked = true → (delayedCleanup reg sid).2 = []) ∧
      List.lookup sid (delayedCleanup reg sid).1 = none) ∧
    (∀ (reg : Registry) (sid : String),
      List.lookup sid reg = none → delayedCleanup reg sid = (reg, [])) := by
  constructor
  · intro reg sid sess hl
    refine ⟨?_, ?_, ?_⟩
    · intro hb hn
      simp [delayedCleanup, hl, hb, hn]
    · intro hb
      simp [delayedCleanup, hl, hb]
    · simp only [delayedCleanup, hl]
      exact lookup_filter_not_self sid reg
  · intro reg sid hl
    simp [delayedCleanup, hl]

/-- Claim C8 witness: an unbooked session with a known name gets one finalize
record and is evicted; a booked session gets none; a missing entry is a no-op. -/
theorem C8_witness :
    (delayedCleanup [("CA1", ⟨"CA1", { name := .str "Jane" }, false, false⟩)] "CA1").2.length = 1 ∧
    List.lookup "CA1" (delayedCleanup [("CA1", ⟨"CA1", { name := .str "Jane" }, false, false⟩)] "CA1").1 = none ∧
    (delayedCleanup [("CA2", ⟨"CA2", {}, false, true⟩)] "CA2").2 = [] ∧
    delayedCleanup [] "CA9" = ([], []) := by
  obtain ⟨hpresent, hnone⟩ := C8_cleanup_finalize
  obtain ⟨h1, _, h3⟩ := hpresent [("CA1", ⟨"CA1", { name := .str "Jane" }, false, false⟩)]
    "CA1" ⟨"CA1", { name := .str "Jane" }, false, false⟩ rfl
  obtain ⟨_, h2', _⟩ := hpresent [("CA2", ⟨"CA2", {}, false, true⟩)]
    "CA2" ⟨"CA2", {}, false, true⟩ rfl
  refine ⟨?_, h3, h2' rfl, hnone [] "CA9" rfl⟩
  rw [h1 rfl rfl]
  rfl

lemma wellformed_dispatch_ok (env : Env) (tc : ToolCall) (s : Session)
    (hm : tc.arguments ≠ some .malformed) :
    (handleToolCall env tc s).isOk = true := by
  cases harg : tc.arguments with
  | none => simp only [handleToolCall, harg, jsonLoads]; split_ifs <;> rfl
  | some p =>
    cases p with
    | wellFormed a => simp only [handleToolCall, harg, jsonLoads]; split_ifs <;> rfl
    | malformed => exact absurd harg hm

lemma no_abort_aux (env : Env) : ∀ (evts : List AiEvent) (s : Session),
    evts.all eventWellFormed = true → (openaiToTwilio env s evts).aborted = false := by
  intro evts
  induction evts with
  | nil => intro s _; rfl
  | cons e rest ih =>
    intro s h
    rw [List.all_cons, Bool.and_eq_true] at h
    obtain ⟨he, hrest⟩ := h
    cases e with
    | audioDelta payload =>
      simp only [openaiToTwilio]
      split
      · exact ih s hrest
      · exact ih s hrest
    | functionCallDone tc cid =>
      have hok := wellformed_dispatch_ok env tc s (by
        simp only [eventWellFormed, Bool.not_eq_true'] at he
        intro hcon
        rw [hcon] at he
        simp at he)
      cases hh : handleToolCall env tc s with
      | error err => rw [hh] at hok; simp [Except.isOk, Except.toBool] at hok
      | ok v =>
        obtain ⟨res, s', eff⟩ := v
        simp only [openaiToTwilio, hh]
        exact ih s' hrest
    | responseDone => exact ih s hrest
    | speechStarted => exact ih s hrest
    | errorEvent => exact ih s hrest
    | other => exact ih s hrest

/-- Claim C9 (amended): the dispatcher never raises on an invocation whose
arguments payload is absent or syntactically well-formed, and a run of the
AI→Telephony loop over events all of whose tool invocations are such never
ends through the loop's exception handler (AI error events included). -/
theorem C9_wellformed_no_abort (env : Env) (s : Session) (evts : List AiEvent)
    (h : evts.all eventWellFormed = true) :
    (openaiToTwilio env s evts).aborted = false ∧
    ∀ (tc : ToolCall) (s' : Session), tc.arguments ≠ some .malformed →
      (handleToolCall env tc s').isOk = true :=
  ⟨no_abort_aux env evts s h, fun tc s' hm => wellformed_dispatch_ok env tc s' hm⟩

/-- Claim C9 witness: the amended theorem applied to a run with an audio
delta, a well-formed `log_lead` invocation and an AI error event. -/
theorem C9_witness :
    ([.audioDelta "UklGRg==",
      .functionCallDone ⟨some "log_lead", some (.wellFormed {})⟩ (some "call_1"),
      .errorEvent] : List AiEvent).all eventWellFormed = true ∧
    (openaiToTwilio ⟨⟨false, false, false, []⟩, true, true⟩ ⟨"CA123", {}, false, false⟩
      [.audioDelta "UklGRg==",
       .functionCallDone ⟨some "log_lead", some (.wellFormed {})⟩ (some "call_1"),
       .errorEvent]).aborted = false := by
  refine ⟨by decide, ?_⟩
  exact (C9_wellformed_no_abort _ _ _ (by decide)).1

/-- Claim C9 counterexample: a tool invocation with a malformed arguments
payload makes the dispatcher raise (a hard failure, not a no-op), and that
failure ends the relay loop through its exception handler, dropping the
following audio delta that is forwarded when the bad invocation is absent. -/
theorem C9_counterexample :
    handleToolCall ⟨⟨false, false, false, []⟩, true, true⟩
        ⟨some "log_lead", some .malformed⟩ ⟨"CA123", {}, false, false⟩ = .error () ∧
    (openaiToTwilio ⟨⟨false, false, false, []⟩, true, true⟩ ⟨"CA123", {}, false, false⟩
      [.functionCallDone ⟨some "log_lead", some .malformed⟩ (some "call_1"),
       .audioDelta "UklGRg=="]).aborted = true ∧
    (openaiToTwilio ⟨⟨false, false, false, []⟩, true, true⟩ ⟨"CA123", {}, false, false⟩
      [.functionCallDone ⟨some "log_lead", some .malformed⟩ (some "call_1"),
       .audioDelta "UklGRg=="]).outputs = [] ∧
    (openaiToTwilio ⟨⟨false, false, false, []⟩, true, true⟩ ⟨"CA123", {}, false, false⟩
      [.audioDelta "UklGRg=="]).outputs = [.media "UklGRg=="] :=
  ⟨rfl, rfl, rfl, rfl⟩

/-- Claim C10 (amended): every persisted record's phone cell equals the value
of its source — the session's lead phone for `warmTransfer` and finalize
records, the `caller_phone` argument for `logVoicemail`, the `phone` argument
for `logLead` — and is blank exactly when that source is `None` or empty; no
fallback is substituted. -/
theorem C10_record_phone (env : Env) (s : Session) (a : Args) :
    (dispatchEffects env ⟨some "warm_transfer", some (.wellFormed a)⟩ s).records.map rowPhone
      = [s.lead_data.phone] ∧
    (dispatchEffects env ⟨some "log_voicemail", some (.wellFormed a)⟩ s).records.map rowPhone
      = [getv a.caller_phone] ∧
    (dispatchEffects env ⟨some "log_lead", some (.wellFormed a)⟩ s).records.map rowPhone
      = [a.phone.getD (.str "")] ∧
    (∀ sess : Session, rowPhone (finalizeDict sess) = sess.lead_data.phone) ∧
    (∀ p : PyStr, blankPhone p = !p.truthy) := by
  refine ⟨rfl, rfl, rfl, fun _ => rfl, fun p => ?_⟩
  cases p <;> simp [blankPhone, PyStr.truthy]

/-- Claim C10 counterexample: a `logVoicemail` invocation without a
`caller_phone` value persists a record with a silently blank phone, and the
finalize log of a session whose caller-ID was never captured does the same —
no call-identifier fallback is applied. -/
theorem C10_counterexample :
    (dispatchEffects ⟨⟨false, false, false, []⟩, true, true⟩
        ⟨some "log_voicemail",
         some (.wellFormed { caller_name := some (.str "J. Doe"),
                             message := some (.str "Please call back") })⟩
        ⟨"CA123", {}, false, false⟩).records.map (fun d => blankPhone (rowPhone d)) = [true] ∧
    (delayedCleanup [("CA123", ⟨"CA123", { name := .str "Jane" }, false, false⟩)] "CA123").2.map
        (fun d => blankPhone (rowPhone d)) = [true] :=
  ⟨rfl, rfl⟩

/-- Claim C3 witness: the shape theorem applied to a concrete environment
whose query succeeds over an empty booked set. -/
theorem C3_witness :
    (checkCalendarAvailability ⟨true, true, true, []⟩ 60).length ≤ 5 :=
  (C3_planner_shape ⟨true, true, true, []⟩ 60).1
